import Mathlib

/-!
Shallow embedding of `src/openstf_dbc/services/predictor.py`.

A pandas `DataFrame` with a UTC `DatetimeIndex` is modelled as a `DF`:
an ordered list of column names together with rows, each row pairing a
timestamp (minutes since a fixed midnight epoch) with one optional
rational value per column (`none` models `NaN`).  Resampling frequencies
are positive numbers of minutes; the model, like the system (which only
uses day-dividing frequencies such as "15T" and "1H"), assumes the
frequency divides one day, so that pandas' `origin="start_day"` bin
anchor coincides with flooring the timestamp to a multiple of the
frequency.

The external collaborators (`_DataInterface.exec_influx_query`,
`_DataInterface.exec_sql_query`, `Weather.get_weather_data`) are not part
of the analysed source; following the spec (sections 6 and 7), each is
modelled as an arbitrary table handed to the function under analysis, an
empty table standing for a missing/empty source.
-/

namespace OpenSTEF

/-- One cell of a data frame: `none` is pandas `NaN`. -/
abbrev Cell := Option ℚ

/-- A pandas DataFrame with a datetime index: ordered column names and
rows of (timestamp, cells). -/
structure DF where
  cols : List String
  rows : List (ℕ × List Cell)
deriving Repr, DecidableEq

/-- The index of a frame: its list of timestamps. -/
def DF.index (df : DF) : List ℕ := df.rows.map Prod.fst

/-- Pandas `DataFrame.empty`: true when either axis has length zero. -/
def DF.isEmpty (df : DF) : Bool := df.rows.isEmpty || df.cols.isEmpty

/-- A frame is well formed when every row has one cell per column. -/
def DF.WF (df : DF) : Prop := ∀ p ∈ df.rows, p.2.length = df.cols.length

instance (df : DF) : Decidable df.WF :=
  List.decidableBAll _ df.rows

/-- Pandas `pd.date_range(start, end, freq)` for a concrete frequency of
`f` minutes: the points `start, start + f, ...` up to `end` inclusive. -/
def dateRange (s e f : ℕ) : List ℕ :=
  if e < s then [] else (List.range ((e - s) / f + 1)).map (fun k => s + k * f)

/-- Pandas `pd.date_range(start, end, freq=forecast_resolution)` as called
in `Predictor.get_predictors`: when `freq is None` (and `periods` is not
given) pandas defaults the frequency to one calendar day. -/
def pdDateRange (s e : ℕ) (freq : Option ℕ) : List ℕ :=
  dateRange s e (freq.getD 1440)

/-- Modelled from the spec: `get_datetime_index` from
`openstf_dbc/utils/utils.py` is imported by the analysed file but is not
under `src/`.  Per spec section 4.1 (TimeGridBuilder) it spans
`[start, end]` inclusive at the requested resolution and degenerates to
the two boundary points when the resolution is omitted. -/
def get_datetime_index (s e : ℕ) (freq : Option ℕ) : List ℕ :=
  match freq with
  | some f => dateRange s e f
  | none => [s, e]

/-- Insert a timestamp into an ascending list, keeping it ascending. -/
def insertSorted (t : ℕ) : List ℕ → List ℕ
  | [] => [t]
  | x :: xs => if t ≤ x then t :: x :: xs else x :: insertSorted t xs

/-- Insertion sort of an index into ascending order. -/
def sortIdx : List ℕ → List ℕ
  | [] => []
  | x :: xs => insertSorted x (sortIdx xs)

/-- Sorted, deduplicated union of two indexes, as produced by
`pd.concat(axis=1)` joining on the index. -/
def unionIdx (a b : List ℕ) : List ℕ :=
  sortIdx ((a ++ b).dedup)

/-- The cells of the row at timestamp `t`, if `t` is in the index. -/
def lookupRow (df : DF) (t : ℕ) : Option (List Cell) :=
  (df.rows.find? (fun p => p.1 == t)).map Prod.snd

/-- The cells at `t`, an all-`NaN` row when `t` is absent. -/
def rowAtOr (df : DF) (t : ℕ) : List Cell :=
  (lookupRow df t).getD (List.replicate df.cols.length none)

/-- Pandas `pd.concat([a, b], axis=1)`: outer join on the index, columns
of `a` before columns of `b`. -/
def concatOuter (a b : DF) : DF :=
  { cols := a.cols ++ b.cols
    rows := (unionIdx a.index b.index).map (fun t => (t, rowAtOr a t ++ rowAtOr b t)) }

/-- The labels of `df.resample(freq)`: from the first to the last
observation, each floored to a multiple of the frequency. -/
def binLabels (r : ℕ) (idx : List ℕ) : List ℕ :=
  match idx.min?, idx.max? with
  | some lo, some hi =>
      (List.range (hi / r - lo / r + 1)).map (fun j => r * (lo / r) + j * r)
  | _, _ => []

/-- Cells of the latest original row at or before `t` (index assumed
ascending), an all-`NaN` row when there is none. -/
def lastRowLE (df : DF) (t : ℕ) : List Cell :=
  match (df.rows.filter (fun p => decide (p.1 ≤ t))).getLast? with
  | some p => p.2
  | none => List.replicate df.cols.length none

/-- Pandas `df.resample(freq).ffill()`: reindex onto the bin labels,
padding each new label from the latest earlier observation. -/
def resampleFfill (r : ℕ) (df : DF) : DF :=
  { cols := df.cols
    rows := (binLabels r df.index).map (fun t => (t, lastRowLE df t)) }

/-- Pandas `df.resample(freq).asfreq()`: reindex onto the bin labels,
keeping exact matches and inserting all-`NaN` rows elsewhere. -/
def asfreq (r : ℕ) (df : DF) : DF :=
  { cols := df.cols
    rows := (binLabels r df.index).map (fun t => (t, rowAtOr df t)) }

/-- Position `j` of a column paired with its value when observed there. -/
def validAt (cells : List Cell) (j : ℕ) : Option (ℕ × ℚ) :=
  match cells.getD j none with
  | some v => some (j, v)
  | none => none

/-- The last observed position strictly before `i` in a column. -/
def prevValid (cells : List Cell) (i : ℕ) : Option (ℕ × ℚ) :=
  ((List.range i).filterMap (validAt cells)).getLast?

/-- The first observed position strictly after `i` in a column. -/
def nextValid (cells : List Cell) (i : ℕ) : Option (ℕ × ℚ) :=
  (((List.range cells.length).filterMap (validAt cells)).filter
    (fun p => decide (i < p.1))).head?

/-- Pandas `interpolate(method="linear", limit=lim)` at one position of
one column: an observed cell is kept; a missing cell is filled only when
some observation precedes it within `lim` positions, linearly against the
next observation when one exists and by carrying the previous value
forward otherwise (pandas fills trailing gaps this way). -/
def interpCell (lim : ℕ) (cells : List Cell) (i : ℕ) : Cell :=
  match cells.getD i none with
  | some v => some v
  | none =>
    match prevValid cells i with
    | none => none
    | some jv =>
      if i - jv.1 ≤ lim then
        match nextValid cells i with
        | some kv =>
            some (jv.2 + (kv.2 - jv.2) *
              (((i : ℚ) - (jv.1 : ℚ)) / ((kv.1 : ℚ) - (jv.1 : ℚ))))
        | none => some jv.2
      else none

/-- The cells of column number `c`, top to bottom. -/
def colCells (df : DF) (c : ℕ) : List Cell :=
  df.rows.map (fun p => p.2.getD c none)

/-- Pandas `DataFrame.interpolate(method="linear", limit=lim)`, applied
column-wise via `interpCell`. -/
def interpolateDF (lim : ℕ) (df : DF) : DF :=
  { cols := df.cols
    rows := (List.range df.rows.length).map (fun i =>
      ((df.rows.getD i (0, [])).1,
       (List.range df.cols.length).map (fun c => interpCell lim (colCells df c) i))) }

/-- Pandas `df.resample(freq).interpolate(limit=lim)`: reindex onto the
bin labels, then interpolate linearly with the run-length cap. -/
def resampleInterpolate (lim r : ℕ) (df : DF) : DF :=
  interpolateDF lim (asfreq r df)

/-- Pandas `df.rename(columns={old: new})`. -/
def renameCol (old new : String) (df : DF) : DF :=
  { cols := df.cols.map (fun n => if n = old then new else n)
    rows := df.rows }

/-- Position of a column name, if present. -/
def colPos (df : DF) (c : String) : Option ℕ :=
  df.cols.findIdx? (fun n => n == c)

/-- The cells of the named column (used for `weather_data.source_1`). -/
def getColCells (df : DF) (c : String) : List Cell :=
  match colPos df c with
  | some i => df.rows.map (fun p => p.2.getD i none)
  | none => df.rows.map (fun _ => none)

/-- Pandas column assignment `df[c] = vals`: overwrite in place when the
column exists, append it at the end otherwise. -/
def assignCol (c : String) (vals : List Cell) (df : DF) : DF :=
  match colPos df c with
  | some i =>
      { cols := df.cols
        rows := (df.rows.zip vals).map (fun pv => (pv.1.1, pv.1.2.set i pv.2)) }
  | none =>
      { cols := df.cols ++ [c]
        rows := (df.rows.zip vals).map (fun pv => (pv.1.1, pv.1.2 ++ [pv.2])) }

/-- Pandas `df.drop(c, axis=1)` / `del df[c]`: remove every column whose
name is `c`, cell lists filtered positionally. -/
def dropCol (c : String) (df : DF) : DF :=
  { cols := df.cols.filter (fun n => !(n == c))
    rows := df.rows.map (fun p =>
      (p.1, ((df.cols.zip p.2).filter (fun q => !(q.1 == c))).map Prod.snd)) }

/-- The enum `PredictorGroups` from the source, in declaration order. -/
inductive PGroup
  | market_data
  | weather_data
  | load_profiles
deriving Repr, DecidableEq

/-- An element of the `predictor_groups` argument: already an enum member
or a raw string still to be coerced by `PredictorGroups(p)`. -/
inductive GroupInput
  | enum (g : PGroup)
  | str (s : String)
deriving Repr, DecidableEq

/-- Python `PredictorGroups(p)`: identity on enum members, value lookup
on strings, `ValueError` (carrying the bad value) otherwise. -/
def coerceGroup : GroupInput → Except String PGroup
  | .enum g => .ok g
  | .str s =>
      if s = "market_data" then .ok .market_data
      else if s = "weather_data" then .ok .weather_data
      else if s = "load_profiles" then .ok .load_profiles
      else .error s

/-- The list comprehension `[PredictorGroups(p) for p in predictor_groups]`,
failing at the first element that is not a valid group. -/
def coerceGroups : List GroupInput → Except String (List PGroup)
  | [] => .ok []
  | g :: rest =>
    match coerceGroup g, coerceGroups rest with
    | .ok p, .ok ps => .ok (p :: ps)
    | .error s, _ => .error s
    | .ok _, .error s => .error s

/-- The default `[p for p in PredictorGroups]`, in enum declaration order. -/
def defaultGroups : List GroupInput :=
  [.enum .market_data, .enum .weather_data, .enum .load_profiles]

/-- The two `ValueError`s `Predictor.get_predictors` can raise: an
unrecognized group identifier during coercion, or weather data requested
without a location. -/
inductive PredictorError
  | invalidGroup (s : String)
  | missingLocation
deriving Repr, DecidableEq

/-- One call to an external collaborator, recorded in order. -/
inductive FetchEvent
  | weather
  | market
  | loadProfiles
deriving Repr, DecidableEq

/-- `Predictor.get_electricity_price`: the influx result for measurement
`marketprices` (`eSrc`) has its `Price` column renamed to `APX` and, when
a resolution is given and the table is non-empty, is resampled with
forward fill. -/
def get_electricity_price (eSrc : DF) (freq : Option ℕ) : DF :=
  let ep := renameCol "Price" "APX" eSrc
  match freq with
  | some r => if ep.isEmpty then ep else resampleFfill r ep
  | none => ep

/-- `Predictor.get_gas_price`: the SQL result (`gSrc`, time-indexed per
the data interface) has its `price` column renamed to `Elba` and, when a
resolution is given and the table is non-empty, is resampled with forward
fill. -/
def get_gas_price (gSrc : DF) (freq : Option ℕ) : DF :=
  let gp := renameCol "price" "Elba" gSrc
  match freq with
  | some r => if gp.isEmpty then gp else resampleFfill r gp
  | none => gp

/-- `Predictor.get_market_data`: fetch both price series and merge them
by the exhaustive emptiness case split of the source. -/
def get_market_data (eSrc gSrc : DF) (s e : ℕ) (freq : Option ℕ) : DF :=
  let ep := get_electricity_price eSrc freq
  let gp := get_gas_price gSrc freq
  if ep.isEmpty = false ∧ gp.isEmpty = true then ep
  else if ep.isEmpty = true ∧ gp.isEmpty = false then gp
  else if ep.isEmpty = true ∧ gp.isEmpty = true then
    { cols := [], rows := (get_datetime_index s e freq).map (fun t => (t, [])) }
  else concatOuter ep gp

/-- `Predictor.get_load_profiles`: the influx result for measurement
`sjv` (`lSrc`), resampled with linear interpolation capped at 3 when a
resolution is given and the table is non-empty. -/
def get_load_profiles (lSrc : DF) (freq : Option ℕ) : DF :=
  match freq with
  | some r => if lSrc.isEmpty then lSrc else resampleInterpolate 3 r lSrc
  | none => lSrc

/-- First clean-up block of `Predictor.get_weather_data`: when a
`source_1` column exists, copy it over `source` and drop `source_1`. -/
def weatherStep1 (df : DF) : DF :=
  if "source_1" ∈ df.cols then
    dropCol "source_1" (assignCol "source" (getColCells df "source_1") df)
  else df

/-- Second clean-up block: drop `source` when present. -/
def weatherStep2 (df : DF) : DF :=
  if "source" ∈ df.cols then dropCol "source" df else df

/-- Third clean-up block: drop `input_city_1` when present, otherwise
drop `input_city` when present. -/
def weatherStep3 (df : DF) : DF :=
  if "input_city_1" ∈ df.cols then dropCol "input_city_1" df
  else if "input_city" ∈ df.cols then dropCol "input_city" df
  else df

/-- The column clean-up in `Predictor.get_weather_data`, the three code
blocks in order. -/
def weatherPostprocess (df : DF) : DF :=
  weatherStep3 (weatherStep2 (weatherStep1 df))

/-- `Predictor.get_weather_data`: the weather collaborator's table
(`wSrc`) is cleaned up and, when a resolution is given and the result is
non-empty, resampled with linear interpolation capped at 11. -/
def get_weather_data (wSrc : DF) (freq : Option ℕ) : DF :=
  let w := weatherPostprocess wSrc
  match freq with
  | some r => if w.isEmpty then w else resampleInterpolate 11 r w
  | none => w

/-- `Predictor.get_predictors`: default and coerce the groups, require a
location when weather data is requested, build the canonical grid with
`pd.date_range`, then concatenate the requested components in the fixed
order weather, market, load profiles.  The four `DF` arguments are the
collaborators' responses; the returned event list records which fetches
were performed, in order. -/
def get_predictors (s e : ℕ) (freq : Option ℕ) (loc : Option String)
    (groups : Option (List GroupInput)) (wSrc eSrc gSrc lSrc : DF) :
    Except PredictorError (DF × List FetchEvent) :=
  match coerceGroups (groups.getD defaultGroups) with
  | .error s => .error (.invalidGroup s)
  | .ok gs =>
    if PGroup.weather_data ∈ gs ∧ loc = none then .error .missingLocation
    else
      let grid : DF := { cols := [], rows := (pdDateRange s e freq).map (fun t => (t, [])) }
      let st0 := (grid, ([] : List FetchEvent))
      let st1 :=
        if PGroup.weather_data ∈ gs then
          (concatOuter st0.1 (get_weather_data wSrc freq), st0.2 ++ [FetchEvent.weather])
        else st0
      let st2 :=
        if PGroup.market_data ∈ gs then
          (concatOuter st1.1 (get_market_data eSrc gSrc s e freq), st1.2 ++ [FetchEvent.market])
        else st1
      let st3 :=
        if PGroup.load_profiles ∈ gs then
          (concatOuter st2.1 (get_load_profiles lSrc freq), st2.2 ++ [FetchEvent.loadProfiles])
        else st2
      .ok st3

deriving instance DecidableEq for Except

/-- The empty frame, standing for an empty collaborator response. -/
def dfE : DF := { cols := [], rows := [] }

/-- Result frame of a successful `get_predictors` call, `dfE` on error. -/
def okDF (x : Except PredictorError (DF × List FetchEvent)) : DF :=
  match x with
  | .ok p => p.1
  | .error _ => dfE

/-- Index of the result frame of a successful call, `[]` on error. -/
def okIndex (x : Except PredictorError (DF × List FetchEvent)) : List ℕ :=
  (okDF x).index

/-- Cell of the row with timestamp `t` at column position `c`. -/
def cellAt (df : DF) (t c : ℕ) : Cell :=
  match df.rows.find? (fun p => p.1 == t) with
  | some p => p.2.getD c none
  | none => none

/-- Cell of the row at position `i` at column position `c`. -/
def cellAtPos (df : DF) (i c : ℕ) : Cell :=
  match df.rows[i]? with
  | some p => p.2.getD c none
  | none => none

/-- One conditional merge of the `get_predictors` loop: when the group is
requested, join the component's table onto the accumulating table. -/
def addGroup (gs : List PGroup) (g : PGroup) (comp acc : DF) : DF :=
  if g ∈ gs then concatOuter acc comp else acc

/-- The table built by the merge loop of `get_predictors` for an already
coerced group list: the canonical grid, extended by the requested
components in the fixed weather, market, load-profiles order. -/
def mergedDF (s e : ℕ) (freq : Option ℕ) (gs : List PGroup)
    (wSrc eSrc gSrc lSrc : DF) : DF :=
  addGroup gs .load_profiles (get_load_profiles lSrc freq)
    (addGroup gs .market_data (get_market_data eSrc gSrc s e freq)
      (addGroup gs .weather_data (get_weather_data wSrc freq)
        { cols := [], rows := (pdDateRange s e freq).map (fun t => (t, [])) }))

/-- The fetches the merge loop of `get_predictors` performs, in order. -/
def mergedTrace (gs : List PGroup) : List FetchEvent :=
  (if PGroup.weather_data ∈ gs then [FetchEvent.weather] else []) ++
  (if PGroup.market_data ∈ gs then [FetchEvent.market] else []) ++
  (if PGroup.load_profiles ∈ gs then [FetchEvent.loadProfiles] else [])

/-- The electricity-price source of the spec's example scenario:
observations at 00:00 and 12:00 only. -/
def elecObs (p0 p1 : ℚ) : DF :=
  { cols := ["Price"], rows := [(0, [some p0]), (720, [some p1])] }

/-- A gas-price response with a single observation off the daily grid. -/
def gasOff : DF := { cols := ["price"], rows := [(100, [some 5])] }

/-- A load-profile response with a gap of five missing hourly points
between its two observations. -/
def sjvGap : DF := { cols := ["sjv_A"], rows := [(0, [some 0]), (360, [some 12])] }

/-- A weather response carrying both `input_city_1` and `input_city`. -/
def wBoth : DF :=
  { cols := ["source", "input_city_1", "input_city", "temp"],
    rows := [(0, [some 1, some 1, some 1, some 3])] }

/-- A weather response carrying `source` and `input_city` only. -/
def wOne : DF :=
  { cols := ["source", "input_city", "temp"], rows := [(0, [some 1, some 1, some 3])] }

/-- A series already aligned to a 60-minute grid with no missing cell. -/
def aligned60 : DF := { cols := ["x"], rows := [(0, [some 1]), (60, [some 2])] }

lemma get_predictors_ok_eq (s e : ℕ) (freq : Option ℕ) (loc : Option String)
    (groups : Option (List GroupInput)) (wSrc eSrc gSrc lSrc : DF) (gs : List PGroup)
    (hc : coerceGroups (groups.getD defaultGroups) = .ok gs)
    (hl : ¬(PGroup.weather_data ∈ gs ∧ loc = none)) :
    get_predictors s e freq loc groups wSrc eSrc gSrc lSrc =
      .ok (mergedDF s e freq gs wSrc eSrc gSrc lSrc, mergedTrace gs) := by
  simp only [get_predictors, hc]
  rw [if_neg hl]
  by_cases hw : PGroup.weather_data ∈ gs <;>
    by_cases hm : PGroup.market_data ∈ gs <;>
      by_cases hp : PGroup.load_profiles ∈ gs <;>
        simp [mergedDF, mergedTrace, addGroup, hw, hm, hp]

lemma cols_concatOuter (a b : DF) : (concatOuter a b).cols = a.cols ++ b.cols := rfl

lemma index_concatOuter (a b : DF) :
    (concatOuter a b).index = unionIdx a.index b.index := by
  unfold concatOuter DF.index
  rw [List.map_map]
  simp [Function.comp_def]

lemma mem_insertSorted {t s : ℕ} {l : List ℕ} :
    t ∈ insertSorted s l ↔ t = s ∨ t ∈ l := by
  induction l with
  | nil => simp [insertSorted]
  | cons x xs ih =>
    unfold insertSorted
    split
    · simp
    · simp [ih]
      tauto

lemma mem_sortIdx {t : ℕ} {l : List ℕ} : t ∈ sortIdx l ↔ t ∈ l := by
  induction l with
  | nil => simp [sortIdx]
  | cons x xs ih => simp [sortIdx, mem_insertSorted, ih]

lemma mem_unionIdx_left {t : ℕ} {a : List ℕ} (b : List ℕ) (h : t ∈ a) :
    t ∈ unionIdx a b := by
  unfold unionIdx
  rw [mem_sortIdx, List.mem_dedup]
  exact List.mem_append_left b h

/-- C1: if the (defaulted) predictor groups coerce to a list containing
`WEATHER_DATA` and `location` is `None`, `get_predictors` raises the
configuration `ValueError` whatever the other parameters are; the result
carries no fetch-event list and is the same for every collaborator
response, so no group's data is fetched before the failure. -/
theorem get_predictors_weather_without_location_fails
    (s e : ℕ) (freq : Option ℕ) (groups : Option (List GroupInput))
    (wSrc eSrc gSrc lSrc : DF) (gs : List PGroup)
    (hc : coerceGroups (groups.getD defaultGroups) = .ok gs)
    (hw : PGroup.weather_data ∈ gs) :
    get_predictors s e freq none groups wSrc eSrc gSrc lSrc =
      .error PredictorError.missingLocation := by
  simp [get_predictors, hc, hw]

theorem get_predictors_weather_without_location_fails_witness :
    coerceGroups ((none : Option (List GroupInput)).getD defaultGroups) =
      .ok [PGroup.market_data, PGroup.weather_data, PGroup.load_profiles] ∧
    PGroup.weather_data ∈ [PGroup.market_data, PGroup.weather_data, PGroup.load_profiles] ∧
    get_predictors 0 1440 none none none dfE dfE dfE dfE =
      .error PredictorError.missingLocation :=
  ⟨rfl, by decide,
    get_predictors_weather_without_location_fails 0 1440 none none dfE dfE dfE dfE
      [PGroup.market_data, PGroup.weather_data, PGroup.load_profiles] rfl (by decide)⟩

/-- C2: `get_market_data` satisfies the exhaustive case table on the
emptiness of the two resampled price series: both empty gives the
zero-column table on the canonical grid, exactly one non-empty gives that
series unchanged, both non-empty gives their column-wise outer join. -/
theorem get_market_data_case_table (eSrc gSrc : DF) (s e : ℕ) (freq : Option ℕ) :
    get_market_data eSrc gSrc s e freq =
      match (get_electricity_price eSrc freq).isEmpty,
            (get_gas_price gSrc freq).isEmpty with
      | true, true =>
          { cols := [], rows := (get_datetime_index s e freq).map (fun t => (t, [])) }
      | false, true => get_electricity_price eSrc freq
      | true, false => get_gas_price gSrc freq
      | false, false =>
          concatOuter (get_electricity_price eSrc freq) (get_gas_price gSrc freq) := by
  unfold get_market_data
  cases h1 : (get_electricity_price eSrc freq).isEmpty <;>
    cases h2 : (get_gas_price gSrc freq).isEmpty <;>
      simp [h1, h2]

/-- C7 counterexample: with the resolution omitted, for the window from 0
to 2880 minutes (two days) the grid `get_predictors` builds has the index
`[0, 1440, 2880]` — pandas defaults the omitted frequency to one day —
and not the two boundary points `[0, 2880]` the claim states. -/
theorem no_resolution_grid_not_two_points :
    okIndex (get_predictors 0 2880 none none (some []) dfE dfE dfE dfE) =
      [0, 1440, 2880] ∧
    okIndex (get_predictors 0 2880 none none (some []) dfE dfE dfE dfE) ≠
      [0, 2880] := by
  exact ⟨rfl, by decide⟩

/-- C7 amended: when the resolution is omitted, the canonical grid built
by `get_predictors` is a zero-column table whose index is the window
sampled at pandas' default frequency of one calendar day (1440 minutes),
which degenerates to the two boundary points only for windows of at most
one day. -/
theorem get_predictors_no_resolution_daily_grid (s e : ℕ) (loc : Option String)
    (wSrc eSrc gSrc lSrc : DF) :
    get_predictors s e none loc (some []) wSrc eSrc gSrc lSrc =
      .ok ({ cols := [], rows := (dateRange s e 1440).map (fun t => (t, [])) }, []) := by
  unfold get_predictors
  simp [coerceGroups, pdDateRange]

/-- C10: when the electricity-price source has the single column `Price`
and the gas-price source the single column `price`, the component outputs
carry exactly the renamed columns `APX` and `Elba`, and neither source
name survives anywhere in the market-data output. -/
theorem market_price_columns_renamed (eSrc gSrc : DF) (s e : ℕ) (freq : Option ℕ)
    (he : eSrc.cols = ["Price"]) (hg : gSrc.cols = ["price"]) :
    (get_electricity_price eSrc freq).cols = ["APX"] ∧
    (get_gas_price gSrc freq).cols = ["Elba"] ∧
    "Price" ∉ (get_market_data eSrc gSrc s e freq).cols ∧
    "price" ∉ (get_market_data eSrc gSrc s e freq).cols := by
  have hec : (get_electricity_price eSrc freq).cols = ["APX"] := by
    unfold get_electricity_price
    cases freq <;> simp [renameCol, resampleFfill, he] <;> split <;> simp [renameCol, he]
  have hgc : (get_gas_price gSrc freq).cols = ["Elba"] := by
    unfold get_gas_price
    cases freq <;> simp [renameCol, resampleFfill, hg] <;> split <;> simp [renameCol, hg]
  refine ⟨hec, hgc, ?_, ?_⟩ <;>
    · simp only [get_market_data]
      split
      · simp [hec]
      · split
        · simp [hgc]
        · split
          · simp
          · simp [cols_concatOuter, hec, hgc]

theorem market_price_columns_renamed_witness :
    (DF.mk ["Price"] [(0, [some 1])]).cols = ["Price"] ∧
    (DF.mk ["price"] [(0, [some 1])]).cols = ["price"] ∧
    ((get_electricity_price (DF.mk ["Price"] [(0, [some 1])]) (some 60)).cols = ["APX"] ∧
     (get_gas_price (DF.mk ["price"] [(0, [some 1])]) (some 60)).cols = ["Elba"] ∧
     "Price" ∉ (get_market_data (DF.mk ["Price"] [(0, [some 1])])
        (DF.mk ["price"] [(0, [some 1])]) 0 1440 (some 60)).cols ∧
     "price" ∉ (get_market_data (DF.mk ["Price"] [(0, [some 1])])
        (DF.mk ["price"] [(0, [some 1])]) 0 1440 (some 60)).cols) :=
  ⟨rfl, rfl,
    market_price_columns_renamed (DF.mk ["Price"] [(0, [some 1])])
      (DF.mk ["price"] [(0, [some 1])]) 0 1440 (some 60) rfl rfl⟩

/-- C3 counterexample: in the spec's scenario (hourly resolution, market
data only, electricity observations at 00:00 and 12:00, gas empty) the
output does have 25 rows, but the cell at 13:00 (minute 780) is missing:
forward fill stops at the last observation's bin, so the 12:00 value does
not reach every later grid point as the claim states. -/
theorem market_scenario_not_filled_after_last_obs :
    (okDF (get_predictors 0 1440 (some 60) none (some [.enum .market_data])
        dfE (elecObs 10 20) dfE dfE)).rows.length = 25 ∧
    cellAt (okDF (get_predictors 0 1440 (some 60) none (some [.enum .market_data])
        dfE (elecObs 10 20) dfE dfE)) 720 0 = some 20 ∧
    cellAt (okDF (get_predictors 0 1440 (some 60) none (some [.enum .market_data])
        dfE (elecObs 10 20) dfE dfE)) 780 0 = none := by
  refine ⟨by decide, by decide, by decide⟩

/-- C3 amended: the scenario (shown with the representative observations
10 at 00:00 and 20 at 12:00) yields 25 hourly rows with the single column
`APX`; the 00:00 observation fills 00:00 through 11:00, the 12:00
observation appears at 12:00 only, and every point after 12:00 is
missing, because `resample(...).ffill()` produces no bins after the last
observation and the outer join against the grid fills the remaining
timestamps with `NaN`. -/
theorem market_scenario_hourly_ffill :
    get_predictors 0 1440 (some 60) none (some [.enum .market_data])
        dfE (elecObs 10 20) dfE dfE =
      .ok ({ cols := ["APX"],
             rows := [(0, [some 10]), (60, [some 10]), (120, [some 10]), (180, [some 10]),
               (240, [some 10]), (300, [some 10]), (360, [some 10]), (420, [some 10]),
               (480, [some 10]), (540, [some 10]), (600, [some 10]), (660, [some 10]),
               (720, [some 20]), (780, [none]), (840, [none]), (900, [none]),
               (960, [none]), (1020, [none]), (1080, [none]), (1140, [none]),
               (1200, [none]), (1260, [none]), (1320, [none]), (1380, [none]),
               (1440, [none])] },
           [FetchEvent.market]) := by
  decide

lemma mem_index_concat_left {t : ℕ} (a b : DF) (h : t ∈ a.index) :
    t ∈ (concatOuter a b).index := by
  rw [index_concatOuter]
  exact mem_unionIdx_left _ h

lemma mem_index_addGroup {t : ℕ} {gs : List PGroup} {g : PGroup} {comp acc : DF}
    (h : t ∈ acc.index) : t ∈ (addGroup gs g comp acc).index := by
  unfold addGroup
  split
  · exact mem_index_concat_left _ _ h
  · exact h

/-- C4 counterexample: with market data only, no resolution, an empty
electricity source and a gas observation at minute 100, the result index
is `[0, 100, 1440]`, a strict superset of the requested grid
`[0, 1440]` — the outer join keeps off-grid source timestamps. -/
theorem index_not_exactly_grid :
    okIndex (get_predictors 0 1440 none none (some [.enum .market_data])
      dfE dfE gasOff dfE) = [0, 100, 1440] ∧
    pdDateRange 0 1440 none = [0, 1440] := by
  exact ⟨by decide, by decide⟩

/-- C4 amended: the index of a successful `get_predictors` result always
contains every point of the requested grid (it is never a strict subset),
but it can strictly exceed the grid when a source responds with off-grid
timestamps, since the merge is an outer join. -/
theorem get_predictors_index_contains_grid
    (s e : ℕ) (freq : Option ℕ) (loc : Option String)
    (groups : Option (List GroupInput)) (wSrc eSrc gSrc lSrc : DF)
    (df : DF) (tr : List FetchEvent)
    (h : get_predictors s e freq loc groups wSrc eSrc gSrc lSrc = .ok (df, tr)) :
    ∀ t ∈ pdDateRange s e freq, t ∈ df.index := by
  intro t ht
  rcases hco : coerceGroups (groups.getD defaultGroups) with s' | gs
  · simp [get_predictors, hco] at h
  · by_cases hcond : PGroup.weather_data ∈ gs ∧ loc = none
    · simp [get_predictors, hco, hcond] at h
    · rw [get_predictors_ok_eq s e freq loc groups wSrc eSrc gSrc lSrc gs hco hcond] at h
      simp only [Except.ok.injEq, Prod.mk.injEq] at h
      obtain ⟨hdf, -⟩ := h
      subst hdf
      have hgrid : t ∈
          (DF.mk [] ((pdDateRange s e freq).map (fun u => (u, [])))).index := by
        simpa [DF.index, List.map_map, Function.comp_def] using ht
      exact mem_index_addGroup (mem_index_addGroup (mem_index_addGroup hgrid))

theorem get_predictors_index_contains_grid_witness :
    get_predictors 0 1440 none none (some []) dfE dfE dfE dfE =
      .ok (DF.mk [] [(0, []), (1440, [])], []) ∧
    ∀ t ∈ pdDateRange 0 1440 none, t ∈ (DF.mk [] [(0, []), (1440, [])]).index :=
  ⟨by decide,
    get_predictors_index_contains_grid 0 1440 none none (some []) dfE dfE dfE dfE
      (DF.mk [] [(0, []), (1440, [])]) [] (by decide)⟩

/-- C8: on success, `get_predictors` merges the requested groups in the
fixed order weather data, market data, load profiles, each by horizontal
outer join onto the accumulating table: the fetch events happen in
exactly that order, and the output columns are the concatenation of the
requested components' columns in that group order (each component keeps
its own source-native column order). -/
theorem get_predictors_group_order
    (s e : ℕ) (freq : Option ℕ) (loc : Option String)
    (groups : Option (List GroupInput)) (wSrc eSrc gSrc lSrc : DF) (gs : List PGroup)
    (hc : coerceGroups (groups.getD defaultGroups) = .ok gs)
    (hl : ¬(PGroup.weather_data ∈ gs ∧ loc = none)) :
    ∃ df tr, get_predictors s e freq loc groups wSrc eSrc gSrc lSrc = .ok (df, tr) ∧
      df.cols =
        (if PGroup.weather_data ∈ gs then (get_weather_data wSrc freq).cols else []) ++
        (if PGroup.market_data ∈ gs then (get_market_data eSrc gSrc s e freq).cols else []) ++
        (if PGroup.load_profiles ∈ gs then (get_load_profiles lSrc freq).cols else []) ∧
      tr = (if PGroup.weather_data ∈ gs then [FetchEvent.weather] else []) ++
           (if PGroup.market_data ∈ gs then [FetchEvent.market] else []) ++
           (if PGroup.load_profiles ∈ gs then [FetchEvent.loadProfiles] else []) := by
  refine ⟨_, _, get_predictors_ok_eq s e freq loc groups wSrc eSrc gSrc lSrc gs hc hl,
    ?_, rfl⟩
  unfold mergedDF addGroup
  by_cases h1 : PGroup.weather_data ∈ gs <;>
    by_cases h2 : PGroup.market_data ∈ gs <;>
      by_cases h3 : PGroup.load_profiles ∈ gs <;>
        simp [h1, h2, h3, cols_concatOuter]

theorem get_predictors_group_order_witness :
    coerceGroups ((none : Option (List GroupInput)).getD defaultGroups) =
      .ok [PGroup.market_data, PGroup.weather_data, PGroup.load_profiles] ∧
    ¬(PGroup.weather_data ∈ [PGroup.market_data, PGroup.weather_data, PGroup.load_profiles] ∧
        (some "Arnhem" : Option String) = none) ∧
    (∃ df tr, get_predictors 0 1440 none (some "Arnhem") none dfE dfE dfE dfE = .ok (df, tr) ∧
      df.cols =
        (if PGroup.weather_data ∈ [PGroup.market_data, PGroup.weather_data, PGroup.load_profiles]
          then (get_weather_data dfE none).cols else []) ++
        (if PGroup.market_data ∈ [PGroup.market_data, PGroup.weather_data, PGroup.load_profiles]
          then (get_market_data dfE dfE 0 1440 none).cols else []) ++
        (if PGroup.load_profiles ∈ [PGroup.market_data, PGroup.weather_data, PGroup.load_profiles]
          then (get_load_profiles dfE none).cols else []) ∧
      tr = (if PGroup.weather_data ∈ [PGroup.market_data, PGroup.weather_data, PGroup.load_profiles]
          then [FetchEvent.weather] else []) ++
        (if PGroup.market_data ∈ [PGroup.market_data, PGroup.weather_data, PGroup.load_profiles]
          then [FetchEvent.market] else []) ++
        (if PGroup.load_profiles ∈ [PGroup.market_data, PGroup.weather_data, PGroup.load_profiles]
          then [FetchEvent.loadProfiles] else [])) :=
  ⟨rfl, by decide,
    get_predictors_group_order 0 1440 none (some "Arnhem") none dfE dfE dfE dfE
      [PGroup.market_data, PGroup.weather_data, PGroup.load_profiles] rfl (by decide)⟩

lemma cols_dropCol {d c : String} {df : DF} :
    d ∈ (dropCol c df).cols ↔ d ∈ df.cols ∧ d ≠ c := by
  simp [dropCol, List.mem_filter]

lemma mem_assignCol_iff {d c : String} {vals : List Cell} {df : DF}
    (hdc : d ≠ c) : d ∈ (assignCol c vals df).cols ↔ d ∈ df.cols := by
  rcases hcp : colPos df c with - | i <;> simp [assignCol, hcp, hdc]

lemma cols_resampleInterpolate (lim r : ℕ) (df : DF) :
    (resampleInterpolate lim r df).cols = df.cols := rfl

lemma cols_get_weather_data (wSrc : DF) (freq : Option ℕ) :
    (get_weather_data wSrc freq).cols = (weatherPostprocess wSrc).cols := by
  unfold get_weather_data
  cases freq
  · rfl
  · dsimp only
    split
    · rfl
    · exact cols_resampleInterpolate _ _ _

lemma weatherStep1_no_source1 (df : DF) : "source_1" ∉ (weatherStep1 df).cols := by
  by_cases h : "source_1" ∈ df.cols <;> simp [weatherStep1, h, cols_dropCol]

lemma weatherStep1_mem_iff {d : String} (df : DF) (hd1 : d ≠ "source")
    (hd2 : d ≠ "source_1") : d ∈ (weatherStep1 df).cols ↔ d ∈ df.cols := by
  by_cases h : "source_1" ∈ df.cols <;>
    simp [weatherStep1, h, cols_dropCol, hd2, mem_assignCol_iff hd1]

lemma weatherStep2_no_source (df : DF) : "source" ∉ (weatherStep2 df).cols := by
  by_cases h : "source" ∈ df.cols <;> simp [weatherStep2, h, cols_dropCol]

lemma weatherStep2_mem_iff {d : String} (df : DF) (hd : d ≠ "source") :
    d ∈ (weatherStep2 df).cols ↔ d ∈ df.cols := by
  by_cases h : "source" ∈ df.cols <;> simp [weatherStep2, h, cols_dropCol, hd]

/-- C6 counterexample: when the weather collaborator's table carries both
`input_city_1` and `input_city`, only `input_city_1` is dropped (the
`elif` skips the second branch) and `input_city` survives into the
output, contradicting the claim that none of the four columns remains. -/
theorem weather_city_col_survives :
    "input_city_1" ∈ wBoth.cols ∧ "input_city" ∈ wBoth.cols ∧
    "input_city" ∈ (get_weather_data wBoth none).cols := by
  exact ⟨by decide, by decide, by decide⟩

/-- C6 amended: unless the collaborator's table carries `input_city_1`
and `input_city` simultaneously (in which case `input_city` survives),
the table returned by `get_weather_data` contains none of the columns
`source`, `source_1`, `input_city_1`, `input_city`; the first three are
always absent. -/
theorem weather_metadata_cols_dropped (wSrc : DF) (freq : Option ℕ)
    (hnb : ¬("input_city_1" ∈ wSrc.cols ∧ "input_city" ∈ wSrc.cols)) :
    "source" ∉ (get_weather_data wSrc freq).cols ∧
    "source_1" ∉ (get_weather_data wSrc freq).cols ∧
    "input_city_1" ∉ (get_weather_data wSrc freq).cols ∧
    "input_city" ∉ (get_weather_data wSrc freq).cols := by
  rw [cols_get_weather_data]
  unfold weatherPostprocess
  have hsrc : "source" ∉ (weatherStep2 (weatherStep1 wSrc)).cols :=
    weatherStep2_no_source _
  have hsrc1 : "source_1" ∉ (weatherStep2 (weatherStep1 wSrc)).cols := by
    rw [weatherStep2_mem_iff _ (by decide)]
    exact weatherStep1_no_source1 wSrc
  have hc1 : "input_city_1" ∈ (weatherStep2 (weatherStep1 wSrc)).cols ↔
      "input_city_1" ∈ wSrc.cols := by
    rw [weatherStep2_mem_iff _ (by decide), weatherStep1_mem_iff _ (by decide) (by decide)]
  have hc2 : "input_city" ∈ (weatherStep2 (weatherStep1 wSrc)).cols ↔
      "input_city" ∈ wSrc.cols := by
    rw [weatherStep2_mem_iff _ (by decide), weatherStep1_mem_iff _ (by decide) (by decide)]
  by_cases h3 : "input_city_1" ∈ (weatherStep2 (weatherStep1 wSrc)).cols
  · have hic : "input_city" ∉ (weatherStep2 (weatherStep1 wSrc)).cols := by
      rw [hc2]
      intro hmem
      exact hnb ⟨hc1.mp h3, hmem⟩
    simp [weatherStep3, h3, cols_dropCol, hsrc, hsrc1, hic]
  · by_cases h4 : "input_city" ∈ (weatherStep2 (weatherStep1 wSrc)).cols
    · simp [weatherStep3, h3, h4, cols_dropCol, hsrc, hsrc1]
    · simp [weatherStep3, h3, h4, hsrc, hsrc1]

theorem weather_metadata_cols_dropped_witness :
    ¬("input_city_1" ∈ wOne.cols ∧ "input_city" ∈ wOne.cols) ∧
    ("source" ∉ (get_weather_data wOne none).cols ∧
     "source_1" ∉ (get_weather_data wOne none).cols ∧
     "input_city_1" ∉ (get_weather_data wOne none).cols ∧
     "input_city" ∉ (get_weather_data wOne none).cols) :=
  ⟨by decide, weather_metadata_cols_dropped wOne none (by decide)⟩

lemma validAt_eq_some {cells : List Cell} {j : ℕ} {p : ℕ × ℚ}
    (h : validAt cells j = some p) :
    p.1 = j ∧ cells.getD j none = some p.2 := by
  unfold validAt at h
  rcases hc : cells.getD j none with - | v <;> rw [hc] at h
  · cases h
  · cases h
    exact ⟨rfl, rfl⟩

lemma prevValid_spec {cells : List Cell} {i : ℕ} {p : ℕ × ℚ}
    (h : prevValid cells i = some p) :
    p.1 < i ∧ cells.getD p.1 none = some p.2 := by
  unfold prevValid at h
  have hmem : p ∈ (List.range i).filterMap (validAt cells) := by
    obtain ⟨ys, hys⟩ := List.getLast?_eq_some_iff.mp h
    rw [hys]
    simp
  obtain ⟨a, ha, hva⟩ := List.mem_filterMap.mp hmem
  obtain ⟨h1, h2⟩ := validAt_eq_some hva
  subst h1
  exact ⟨List.mem_range.mp ha, h2⟩

lemma interpCell_gap_none {lim : ℕ} {cells : List Cell} {i : ℕ}
    (hgap : ∀ j, j < lim + 1 → cells.getD (i + j) none = none) :
    interpCell lim cells (i + lim) = none := by
  have h0 : cells.getD (i + lim) none = none := hgap lim (Nat.lt_succ_self lim)
  rcases hp : prevValid cells (i + lim) with - | p
  · simp only [interpCell, h0, hp]
  · obtain ⟨hlt, hv⟩ := prevValid_spec hp
    have hpi : p.1 < i := by
      rcases Nat.lt_or_ge p.1 i with h | h
      · exact h
      · exfalso
        have := hgap (p.1 - i) (by omega)
        rw [show i + (p.1 - i) = p.1 by omega] at this
        rw [this] at hv
        cases hv
    have hcond : ¬(i + lim - p.1 ≤ lim) := by omega
    simp only [interpCell, h0, hp]
    rw [if_neg hcond]

lemma cellAtPos_interpolateDF (lim : ℕ) (A : DF) (q c : ℕ) :
    cellAtPos (interpolateDF lim A) q c =
      if q < A.rows.length ∧ c < A.cols.length then
        interpCell lim (colCells A c) q
      else none := by
  unfold cellAtPos interpolateDF
  by_cases hq : q < A.rows.length
  · have hrow : ((List.range A.rows.length).map (fun i =>
        ((A.rows.getD i (0, [])).1,
         (List.range A.cols.length).map
           (fun c' => interpCell lim (colCells A c') i))))[q]? =
        some ((A.rows.getD q (0, [])).1,
          (List.range A.cols.length).map
            (fun c' => interpCell lim (colCells A c') q)) := by
      rw [List.getElem?_map, List.getElem?_range hq]
      rfl
    rw [hrow]
    dsimp only
    by_cases hc : c < A.cols.length
    · rw [if_pos ⟨hq, hc⟩, List.getD_eq_getElem?_getD, List.getElem?_map,
        List.getElem?_range hc]
      rfl
    · rw [if_neg (by tauto), List.getD_eq_getElem?_getD, List.getElem?_map,
        List.getElem?_eq_none (by simpa using Nat.le_of_not_lt hc)]
      rfl
  · have hrow : ((List.range A.rows.length).map (fun i =>
        ((A.rows.getD i (0, [])).1,
         (List.range A.cols.length).map
           (fun c' => interpCell lim (colCells A c') i))))[q]? = none := by
      rw [List.getElem?_map, List.getElem?_eq_none
        (by simpa using Nat.le_of_not_lt hq)]
      rfl
    rw [hrow, if_neg (by tauto)]

/-- C5 counterexample: in `get_load_profiles` at resolution 60 the source
`sjvGap` leaves a gap of five consecutive non-observed grid points
(positions 1 through 5), longer than the cap of 3; the claim says all of
them remain missing, yet the point at position 1 receives an interpolated
value (only the points beyond the first three stay missing). -/
theorem load_profiles_long_gap_partially_filled :
    (∀ j ∈ [1, 2, 3, 4, 5], (colCells (asfreq 60 sjvGap) 0).getD j none = none) ∧
    (cellAtPos (get_load_profiles sjvGap (some 60)) 1 0).isSome = true ∧
    cellAtPos (get_load_profiles sjvGap (some 60)) 4 0 = none := by
  exact ⟨by decide, by decide, by decide⟩

/-- C5 amended: in the table returned by `get_load_profiles` with a
resolution, whenever four consecutive grid positions are all non-observed
(missing in the reindexed source), the fourth of them stays missing: so
every maximal run of interpolated points has length at most 3, and in a
gap longer than 3 points only the first three receive values while the
rest remain missing. -/
theorem load_profiles_interp_run_capped (lSrc : DF) (r i c : ℕ)
    (hwf : lSrc.WF)
    (hgap : ∀ j, j < 4 → (colCells (asfreq r lSrc) c).getD (i + j) none = none) :
    cellAtPos (get_load_profiles lSrc (some r)) (i + 3) c = none := by
  unfold get_load_profiles
  dsimp only
  split
  · next hemp =>
    rcases hrows : lSrc.rows with - | ⟨p, ps⟩
    · unfold cellAtPos
      rw [hrows]
      rfl
    · have hcols : lSrc.cols = [] := by
        unfold DF.isEmpty at hemp
        rw [hrows] at hemp
        simp at hemp
        exact hemp
      unfold cellAtPos
      rcases hq : lSrc.rows[i + 3]? with - | p'
      · rfl
      · have hp' : p' ∈ lSrc.rows := by
          obtain ⟨hlt, hget⟩ := List.getElem?_eq_some.mp hq
          rw [← hget]
          exact List.getElem_mem hlt
        have hlen : p'.2.length = 0 := by
          rw [hwf p' hp', hcols]
          rfl
        dsimp only
        rw [List.getD_eq_getElem?_getD, List.getElem?_eq_none (by omega)]
        rfl
  · rw [show resampleInterpolate 3 r lSrc = interpolateDF 3 (asfreq r lSrc) from rfl,
      cellAtPos_interpolateDF]
    split
    · exact interpCell_gap_none hgap
    · rfl

theorem load_profiles_interp_run_capped_witness :
    sjvGap.WF ∧
    (∀ j, j < 4 → (colCells (asfreq 60 sjvGap) 0).getD (2 + j) none = none) ∧
    cellAtPos (get_load_profiles sjvGap (some 60)) (2 + 3) 0 = none :=
  ⟨by decide, by decide,
    load_profiles_interp_run_capped sjvGap 60 2 0 (by decide) (by decide)⟩

lemma binLabels_aligned (r t0 k : ℕ) (hr : 0 < r) (hdvd : r ∣ t0) :
    binLabels r ((List.range (k + 1)).map (fun j => t0 + j * r)) =
      (List.range (k + 1)).map (fun j => t0 + j * r) := by
  have hmin : ((List.range (k + 1)).map (fun j => t0 + j * r)).min? = some t0 := by
    rw [List.min?_eq_some_iff (fun a => le_refl a) min_choice
      (fun a b c => le_min_iff)]
    constructor
    · exact List.mem_map.mpr ⟨0, List.mem_range.mpr (Nat.succ_pos k), by simp⟩
    · intro b hb
      obtain ⟨j, -, hj⟩ := List.mem_map.mp hb
      rw [← hj]
      exact Nat.le_add_right t0 (j * r)
  have hmax : ((List.range (k + 1)).map (fun j => t0 + j * r)).max? =
      some (t0 + k * r) := by
    rw [List.max?_eq_some_iff (fun a => le_refl a) max_choice
      (fun a b c => max_le_iff)]
    constructor
    · exact List.mem_map.mpr ⟨k, List.mem_range.mpr (Nat.lt_succ_self k), rfl⟩
    · intro b hb
      obtain ⟨j, hjr, hj⟩ := List.mem_map.mp hb
      rw [← hj]
      have hjk : j ≤ k := Nat.lt_succ_iff.mp (List.mem_range.mp hjr)
      exact Nat.add_le_add_left (Nat.mul_le_mul_right r hjk) t0
  simp only [binLabels, hmin, hmax]
  have hdiv : (t0 + k * r) / r = t0 / r + k := Nat.add_mul_div_right t0 k hr
  rw [hdiv]
  have hcount : t0 / r + k - t0 / r + 1 = k + 1 := by omega
  rw [hcount]
  apply List.map_congr_left
  intro j _
  rw [Nat.mul_div_cancel' hdvd]

lemma rows_pairwise_of_aligned (df : DF) (r t0 k : ℕ) (hr : 0 < r)
    (hidx : df.index = (List.range (k + 1)).map (fun j => t0 + j * r)) :
    List.Pairwise (fun p q : ℕ × List Cell => p.1 < q.1) df.rows := by
  have h1 : List.Pairwise (fun a b : ℕ => a < b) df.index := by
    rw [hidx, List.pairwise_map]
    refine List.Pairwise.imp (fun {a b} hab => ?_) (List.pairwise_lt_range (k + 1))
    have := (Nat.mul_lt_mul_right hr).mpr hab
    omega
  unfold DF.index at h1
  rw [List.pairwise_map] at h1
  exact h1

lemma filter_le_getLast {l : List (ℕ × List Cell)}
    (hpw : List.Pairwise (fun p q : ℕ × List Cell => p.1 < q.1) l)
    {p : ℕ × List Cell} (hp : p ∈ l) :
    (l.filter (fun q => decide (q.1 ≤ p.1))).getLast? = some p := by
  induction l with
  | nil => cases hp
  | cons a as ih =>
    rw [List.pairwise_cons] at hpw
    obtain ⟨ha, hpw'⟩ := hpw
    rcases List.mem_cons.mp hp with rfl | hp'
    · rw [List.filter_cons, if_pos (by simp)]
      have hnil : as.filter (fun q => decide (q.1 ≤ p.1)) = [] := by
        rw [List.filter_eq_nil_iff]
        intro q hq
        have := ha q hq
        simp
        omega
      rw [hnil]
      rfl
    · have hle : a.1 ≤ p.1 := Nat.le_of_lt (ha p hp')
      rw [List.filter_cons, if_pos (by simpa using hle), List.getLast?_cons,
        ih hpw' hp']
      rfl

lemma find_eq_self {l : List (ℕ × List Cell)}
    (hpw : List.Pairwise (fun p q : ℕ × List Cell => p.1 < q.1) l)
    {p : ℕ × List Cell} (hp : p ∈ l) :
    l.find? (fun q => q.1 == p.1) = some p := by
  induction l with
  | nil => cases hp
  | cons a as ih =>
    rw [List.pairwise_cons] at hpw
    obtain ⟨ha, hpw'⟩ := hpw
    rcases List.mem_cons.mp hp with rfl | hp'
    · exact List.find?_cons_of_pos _ (by simp)
    · rw [List.find?_cons_of_neg _ ?_]
      · exact ih hpw' hp'
      · have := ha p hp'
        simp
        omega

lemma map_range_get {α : Type} (l : List α) (g : ℕ → α)
    (hg : ∀ i, (h : i < l.length) → g i = l[i]) :
    (List.range l.length).map g = l := by
  induction l generalizing g with
  | nil => rfl
  | cons a as ih =>
    rw [List.length_cons, List.range_succ_eq_map, List.map_cons, List.map_map]
    have h0 : g 0 = a := hg 0 (Nat.succ_pos _)
    rw [h0]
    congr 1
    exact ih (g ∘ Nat.succ) (fun i h => hg (i + 1) (Nat.succ_lt_succ h))

lemma interpCell_observed {lim : ℕ} {cells : List Cell} {i : ℕ} {v : ℚ}
    (h : cells.getD i none = some v) : interpCell lim cells i = some v := by
  simp only [interpCell, h]

/-- C9: resampling an already aligned series at its own resolution is a
no-op.  For a non-empty series whose timestamps sit exactly on the
`r`-grid with spacing `r` and whose cells are all observed, the
forward-fill step used for prices and the capped linear-interpolation
step used for load profiles and weather (any cap) both return the series
unchanged. -/
theorem resample_aligned_idempotent (df : DF) (r t0 k lim : ℕ) (hr : 0 < r)
    (hdvd : r ∣ t0)
    (hidx : df.index = (List.range (k + 1)).map (fun j => t0 + j * r))
    (hwf : df.WF)
    (hfull : ∀ p ∈ df.rows, ∀ cell ∈ p.2, cell ≠ none) :
    resampleFfill r df = df ∧ resampleInterpolate lim r df = df := by
  have hpw := rows_pairwise_of_aligned df r t0 k hr hidx
  have hlab : binLabels r df.index = df.index := by
    rw [hidx]
    exact binLabels_aligned r t0 k hr hdvd
  have hffill : resampleFfill r df = df := by
    unfold resampleFfill
    rw [hlab]
    unfold DF.index
    rw [List.map_map]
    have hcg : ∀ p ∈ df.rows,
        ((fun t => (t, lastRowLE df t)) ∘ Prod.fst) p = id p := by
      intro p hp
      have hlr : lastRowLE df p.1 = p.2 := by
        unfold lastRowLE
        rw [filter_le_getLast hpw hp]
      simp [Function.comp_def, hlr]
    rw [List.map_congr_left hcg, List.map_id]
  have hasfreq : asfreq r df = df := by
    unfold asfreq
    rw [hlab]
    unfold DF.index
    rw [List.map_map]
    have hcg : ∀ p ∈ df.rows,
        ((fun t => (t, rowAtOr df t)) ∘ Prod.fst) p = id p := by
      intro p hp
      have hfind : lookupRow df p.1 = some p.2 := by
        unfold lookupRow
        rw [find_eq_self hpw hp]
        rfl
      simp [Function.comp_def, rowAtOr, hfind]
    rw [List.map_congr_left hcg, List.map_id]
  have hinterp : interpolateDF lim df = df := by
    unfold interpolateDF
    have hrows : (List.range df.rows.length).map (fun i =>
        ((df.rows.getD i (0, [])).1,
         (List.range df.cols.length).map
           (fun c => interpCell lim (colCells df c) i))) = df.rows := by
      apply map_range_get
      intro i h
      have hpmem : df.rows[i] ∈ df.rows := List.getElem_mem h
      have h1 : df.rows.getD i (0, []) = df.rows[i] :=
        List.getD_eq_getElem df.rows (0, []) h
      have h2 : (List.range df.cols.length).map
          (fun c => interpCell lim (colCells df c) i) = df.rows[i].2 := by
        have hlen : df.rows[i].2.length = df.cols.length := hwf _ hpmem
        rw [← hlen]
        apply map_range_get
        intro c hc
        have hcol : (colCells df c).getD i none = df.rows[i].2.getD c none := by
          unfold colCells
          rw [List.getD_eq_getElem _ _ (by simpa using h), List.getElem_map]
        have hcell : df.rows[i].2.getD c none = df.rows[i].2[c] :=
          List.getD_eq_getElem _ _ hc
        have hobs : df.rows[i].2[c] ≠ none :=
          hfull _ hpmem _ (List.getElem_mem hc)
        rcases hv : df.rows[i].2[c] with - | v
        · exact absurd hv hobs
        · exact interpCell_observed (hcol.trans (hcell.trans hv))
      rw [h1, h2]
    rw [hrows]
  refine ⟨hffill, ?_⟩
  unfold resampleInterpolate
  rw [hasfreq]
  exact hinterp

theorem resample_aligned_idempotent_witness :
    ((0 : ℕ) < 60 ∧ (60 : ℕ) ∣ 0 ∧
      aligned60.index = (List.range (1 + 1)).map (fun j => 0 + j * 60) ∧
      aligned60.WF ∧ ∀ p ∈ aligned60.rows, ∀ cell ∈ p.2, cell ≠ none) ∧
    (resampleFfill 60 aligned60 = aligned60 ∧
      resampleInterpolate 3 60 aligned60 = aligned60) :=
  ⟨⟨by decide, by decide, by decide, by decide, by decide⟩,
    resample_aligned_idempotent aligned60 60 0 1 3 (by decide) (by decide)
      (by decide) (by decide) (by decide)⟩

end OpenSTEF
